import Mathlib

/-!
# Verification of the cass MCP server (`mcp_server/mcp_server.py`)

A shallow embedding of the pure decision logic of the server:

* `run_cass` — the process runner (`mcp_server.py`, lines 271-302),
  modelled as a total function from the outcome of the subprocess
  invocation to the JSON payload it returns;
* the argument-list builders of `call_tool` (lines 550-645) and the
  outermost exception boundary of tool dispatch;
* the `BackgroundIndexer` supervisor (lines 83-261): `stop`,
  `get_status`, `_run_index`, and the watch-monitor restart decision.

Python dictionaries / JSON values are modelled by the inductive `Json`;
`datetime.now()` is an abstract tick (`Nat`); OS process handles are
modelled by `ProcHandle` records carrying the liveness facts the code
branches on.  `json.loads` is an external library and is passed in as an
abstract parameter `parse : String → Option Json`.
-/

namespace CassMCP

/-- JSON values, the shape of the Python objects the server builds and
returns (`dict` / `list` / `str` / `int` / `bool` / `None`). -/
inductive Json where
  | null : Json
  | bool : Bool → Json
  | num : Int → Json
  | str : String → Json
  | arr : List Json → Json
  | obj : List (String × Json) → Json

/-- Whitespace in the sense of Python's `str.strip()` default set. -/
def isPySpace (c : Char) : Bool :=
  c = ' ' || c = '\t' || c = '\n' || c = '\r' || c = '\x0b' || c = '\x0c'

/-- Python's `str.strip()`: drop leading and trailing whitespace. -/
def strip (s : String) : String :=
  String.mk (((s.toList.dropWhile isPySpace).reverse.dropWhile isPySpace).reverse)

/-- The outcome of one `subprocess.run` invocation, as observed by the
caller: the child ran to completion (return code, stdout, stderr), the
timeout expired (`subprocess.TimeoutExpired`), or the invocation itself
raised (binary missing, permission denied, ...), carrying `str(e)`. -/
inductive ProcOutcome where
  | completed (returncode : Int) (stdout stderr : String)
  | timedOut
  | raised (msg : String)

/-- The timeout message built at `mcp_server.py:300`. -/
def timeoutMsg (timeout : Nat) : String :=
  "Command timed out after " ++ toString timeout ++ "s"

/-- `run_cass` (`mcp_server.py:271-302`).  `parse` stands for
`json.loads` (`some` = parsed value, `none` = `json.JSONDecodeError`);
`exec` is the operating system's behaviour: what `subprocess.run`
yields for a given command line and timeout.  The function is total:
every outcome, including timeout and invocation exceptions, maps to a
returned value. -/
def run_cass (parse : String → Option Json)
    (exec : List String → Nat → ProcOutcome)
    (args : List String) (timeout : Nat) : Json :=
  match exec args timeout with
  | .completed rc out err =>
      if rc ≠ 0 then
        Json.obj [("error", .bool true), ("exit_code", .num rc),
                  ("stderr", .str (strip err)), ("stdout", .str (strip out))]
      else
        match parse out with
        | some j => j
        | none => Json.obj [("output", .str (strip out))]
  | .timedOut =>
      Json.obj [("error", .bool true), ("message", .str (timeoutMsg timeout))]
  | .raised msg =>
      Json.obj [("error", .bool true), ("message", .str msg)]

/-- Does a JSON object literally carry the key `k` at top level? -/
def hasKey (k : String) : Json → Bool
  | .obj kvs => kvs.any (fun kv => kv.1 = k)
  | _ => false

/-- Look up key `k` at the top level of a JSON object. -/
def getField (j : Json) (k : String) : Option Json :=
  match j with
  | .obj kvs => (kvs.find? (fun kv => kv.1 = k)).map (·.2)
  | _ => none

/-- A Failure payload in the spec's sense: an object with `"error": true`. -/
def isFailure (j : Json) : Bool :=
  match getField j "error" with
  | some (.bool true) => true
  | _ => false

/-! ## Tool dispatch (`call_tool`, `mcp_server.py:550-645`) -/

/-- The arguments dictionary passed to `call_tool`, restricted to the
keys the ten tool branches actually read.  A `none` field is an absent
key (so `arguments["k"]` raises `KeyError` and `arguments.get("k")`
yields `None`). -/
structure ToolArguments where
  query : Option String := none
  agent : Option String := none
  workspace : Option String := none
  limit : Option Int := none
  days : Option Int := none
  today : Option Bool := none
  highlight : Option Bool := none
  group_by : Option String := none
  path : Option String := none
  line : Option Int := none
  context : Option Int := none
  format : Option String := none
  full : Option Bool := none

/-- Python truthiness of `arguments.get(k)` for a string-valued key:
`None` and the empty string are falsy. -/
def truthyStr : Option String → Bool
  | some s => s ≠ ""
  | none => false

/-- Python truthiness of `arguments.get(k)` for an integer-valued key:
`None` and `0` are falsy. -/
def truthyInt : Option Int → Bool
  | some v => v ≠ 0
  | none => false

/-- Python truthiness of `arguments.get(k)` for a boolean-valued key. -/
def truthyBool : Option Bool → Bool
  | some b => b
  | none => false

/-- The CLI fragment the `cass_search` branch contributes for `limit`
(`mcp_server.py:563-564`): present only when the value is truthy, and
clamped with `min(limit, 100)`. -/
def limitFragment (limit : Option Int) : List String :=
  match limit with
  | some v => if v ≠ 0 then ["--limit", toString (min v 100)] else []
  | none => []

/-- The `--agent` fragment of the `cass_search` branch
(`mcp_server.py:559-560`). -/
def agentFragment (agent : Option String) : List String :=
  match agent with
  | some s => if s ≠ "" then ["--agent", s] else []
  | none => []

/-- The `--workspace` fragment of the `cass_search` branch
(`mcp_server.py:561-562`). -/
def workspaceFragment (workspace : Option String) : List String :=
  match workspace with
  | some s => if s ≠ "" then ["--workspace", s] else []
  | none => []

/-- The `--days` fragment of the `cass_search` branch
(`mcp_server.py:565-566`). -/
def daysFragment (days : Option Int) : List String :=
  match days with
  | some v => if v ≠ 0 then ["--days", toString v] else []
  | none => []

/-- The `--today` fragment of the `cass_search` branch
(`mcp_server.py:567-568`). -/
def todayFragment (today : Option Bool) : List String :=
  if truthyBool today then ["--today"] else []

/-- The `--highlight` fragment of the `cass_search` branch
(`mcp_server.py:569-570`). -/
def highlightFragment (highlight : Option Bool) : List String :=
  if truthyBool highlight then ["--highlight"] else []

/-- The argument list built by the `cass_search` branch of `call_tool`
(`mcp_server.py:556-570`), given the tool's `query` argument and the
optional arguments, assembled in source order. -/
def buildSearchArgs (query : String) (a : ToolArguments) : List String :=
  ["search", query, "--json"]
  ++ agentFragment a.agent
  ++ workspaceFragment a.workspace
  ++ limitFragment a.limit
  ++ daysFragment a.days
  ++ todayFragment a.today
  ++ highlightFragment a.highlight

/-- The argument list built by the `cass_timeline` branch
(`mcp_server.py:580-593`). -/
def buildTimelineArgs (a : ToolArguments) : List String :=
  ["timeline", "--json"]
  ++ (if truthyBool a.today then ["--today"]
      else if truthyInt a.days then ["--days", toString (a.days.getD 0)]
      else ["--days", "7"])
  ++ (match a.group_by with
      | some s => if s ≠ "" then ["--group-by", s] else []
      | none => [])
  ++ (match a.agent with
      | some s => if s ≠ "" then ["--agent", s] else []
      | none => [])

/-- The ten tool names registered in `list_tools`
(`mcp_server.py:305-547`) and recognised by `call_tool`. -/
def registeredTools : List String :=
  ["cass_search", "cass_stats", "cass_capabilities", "cass_timeline",
   "cass_context", "cass_view", "cass_expand", "cass_export",
   "cass_health", "cass_index"]

/-- The body of `call_tool` inside its `try` block
(`mcp_server.py:555-638`): map the tool name to an Invocation Result
via `run_cass` with the branch's timeout (30 by default, 60 for
export, 300 for index).  A `.error m` value is an exception with
`str(e) = m` escaping the body (the `KeyError` raised by
`arguments["k"]` prints as `'k'` in Python); the unknown-name case is a
*returned* structured Failure, not an exception. -/
def dispatchTool (parse : String → Option Json)
    (exec : List String → Nat → ProcOutcome)
    (name : String) (a : ToolArguments) : Except String Json :=
  if name = "cass_search" then
    match a.query with
    | none => .error "'query'"
    | some q => .ok (run_cass parse exec (buildSearchArgs q a) 30)
  else if name = "cass_stats" then
    .ok (run_cass parse exec ["stats", "--json"] 30)
  else if name = "cass_capabilities" then
    .ok (run_cass parse exec ["capabilities", "--json"] 30)
  else if name = "cass_timeline" then
    .ok (run_cass parse exec (buildTimelineArgs a) 30)
  else if name = "cass_context" then
    match a.path with
    | none => .error "'path'"
    | some p =>
        .ok (run_cass parse exec (["context", p, "--json"]
          ++ (if truthyInt a.limit then ["--limit", toString (a.limit.getD 0)] else [])) 30)
  else if name = "cass_view" then
    match a.path with
    | none => .error "'path'"
    | some p =>
        .ok (run_cass parse exec (["view", p, "--json"]
          ++ (if truthyInt a.line then ["-n", toString (a.line.getD 0)] else [])
          ++ (if truthyInt a.context then ["-C", toString (a.context.getD 0)] else [])) 30)
  else if name = "cass_expand" then
    match a.path with
    | none => .error "'path'"
    | some p =>
        match a.line with
        | none => .error "'line'"
        | some n =>
            .ok (run_cass parse exec (["expand", p, "-n", toString n, "--json"]
              ++ (if truthyInt a.context then ["-C", toString (a.context.getD 0)] else [])) 30)
  else if name = "cass_export" then
    match a.path with
    | none => .error "'path'"
    | some p =>
        .ok (run_cass parse exec ["export", p, "--format", a.format.getD "markdown"] 60)
  else if name = "cass_health" then
    .ok (run_cass parse exec ["health", "--json"] 30)
  else if name = "cass_index" then
    .ok (run_cass parse exec (["index"] ++ (if truthyBool a.full then ["--full"] else [])) 300)
  else
    .ok (Json.obj [("error", .bool true),
                   ("message", .str ("Unknown tool: " ++ name))])

/-- `call_tool`'s outermost boundary (`mcp_server.py:550-645`): the JSON
payload serialised into the single `TextContent` response.  An
exception escaping the body is caught by the `except Exception` handler
and converted to `{"error": true, "message": str(e)}`; nothing
propagates to the transport. -/
def call_tool (parse : String → Option Json)
    (exec : List String → Nat → ProcOutcome)
    (name : String) (a : ToolArguments) : Json :=
  match dispatchTool parse exec name a with
  | .ok r => r
  | .error m => Json.obj [("error", .bool true), ("message", .str m)]

/-! ## Background indexer supervisor (`BackgroundIndexer`, `mcp_server.py:83-261`)

`datetime.now()` is modelled as an abstract tick (`Nat`); a child
process handle (`subprocess.Popen`) is a record of the liveness facts
the supervisor branches on: whether `poll()` currently returns `None`,
and whether the child exits within the grace period after
`terminate()` (`wait(timeout=5)` returning vs raising
`TimeoutExpired`). -/

/-- A watch child process handle, as seen through `poll`, `terminate`,
`wait` and `kill`. -/
structure ProcHandle where
  pid : Nat
  /-- `poll() is None`: the process is currently live. -/
  alive : Bool
  /-- After `terminate()`, does `wait(timeout=5)` return within the
  grace period (`true`), or raise `TimeoutExpired` (`false`)? -/
  exitsOnTerminate : Bool
deriving DecidableEq

/-- The mutable state of a `BackgroundIndexer` instance
(`mcp_server.py:86-94`), plus the liveness of the periodic thread
(`_periodic_thread.is_alive()`), which `get_status` reads. -/
structure IndexerState where
  stopEvent : Bool := false
  isRunning : Bool := false
  watchProcess : Option ProcHandle := none
  periodicAlive : Bool := false
  lastIndexTime : Option Nat := none
  indexCount : Nat := 0
deriving DecidableEq

/-- `self._watch_process is not None and self._watch_process.poll() is
None` (`mcp_server.py:245-248`). -/
def watchRunning (s : IndexerState) : Bool :=
  match s.watchProcess with
  | some p => p.alive
  | none => false

/-- The `mode` string computed by `get_status` (`mcp_server.py:256`). -/
def statusMode (s : IndexerState) : String :=
  if watchRunning s then "watch"
  else if s.periodicAlive then "periodic"
  else "stopped"

/-- `BackgroundIndexer.get_status` (`mcp_server.py:243-261`), with the
last index `datetime` rendered as its abstract tick. -/
def get_status (s : IndexerState) : Json :=
  Json.obj
    [("is_running", .bool s.isRunning),
     ("mode", .str (statusMode s)),
     ("watch_pid",
       if watchRunning s then
         match s.watchProcess with
         | some p => .num p.pid
         | none => .null
       else .null),
     ("last_index_time",
       match s.lastIndexTime with
       | some t => .num t
       | none => .null),
     ("index_count", .num s.indexCount),
     ("index_interval_seconds",
       if s.periodicAlive then .num 300 else .null)]

/-- `BackgroundIndexer._run_index` (`mcp_server.py:189-215`): run the
index subcommand and update the bookkeeping.  When `subprocess.run`
returns (any return code — line 204 runs before the return-code check
at line 207), `_last_index_time` is set to now and `_index_count`
incremented; `TimeoutExpired` and other exceptions skip both updates
(they jump to the `except` handlers, which only log). -/
def runIndex (now : Nat) (outcome : ProcOutcome) (s : IndexerState) :
    IndexerState :=
  match outcome with
  | .completed _ _ _ =>
      { s with lastIndexTime := some now, indexCount := s.indexCount + 1 }
  | .timedOut => s
  | .raised _ => s

/-- The outcome of `subprocess.Popen` in `_start_watch_mode`
(`mcp_server.py:123-129`): a spawned child handle, or an exception. -/
inductive SpawnOutcome where
  | spawned (p : ProcHandle)
  | failed (msg : String)

/-- `_start_periodic_indexing` (`mcp_server.py:167-176`): starts the
periodic thread. -/
def startPeriodic (s : IndexerState) : IndexerState :=
  { s with periodicAlive := true }

/-- `BackgroundIndexer._start_watch_mode` (`mcp_server.py:117-143`):
install the spawned child as the active watch process; if `Popen`
raises, fall back to periodic indexing. -/
def startWatchMode (spawn : SpawnOutcome) (s : IndexerState) :
    IndexerState :=
  match spawn with
  | .spawned p => { s with watchProcess := some p }
  | .failed _ => startPeriodic s

/-- The restart decision of `_monitor_watch_process`
(`mcp_server.py:150-163`) at the moment the loop observes that the
watch child has exited (`poll()` returned a code): if the stop event is
not set, wait the 5-second backoff and re-enter `_start_watch_mode`;
otherwise return with no restart. -/
def monitorOnChildExit (spawn : SpawnOutcome) (s : IndexerState) :
    IndexerState :=
  if s.stopEvent then s else startWatchMode spawn s

/-- `BackgroundIndexer.stop` (`mcp_server.py:226-241`): set the stop
event, clear `_is_running`, and if the watch child is currently live,
`terminate()` it, `wait(timeout=5)`, and `kill()` it on
`TimeoutExpired`.  Both the graceful and the forced branch leave the
child not live. -/
def stop (s : IndexerState) : IndexerState :=
  let s' := { s with stopEvent := true, isRunning := false }
  match s'.watchProcess with
  | some p =>
      if p.alive then
        if p.exitsOnTerminate then
          { s' with watchProcess := some { p with alive := false } }
        else
          { s' with watchProcess := some { p with alive := false } }
      else s'
  | none => s'

/-- One observation of the stop flag by the periodic loop
(`_periodic_index_loop`, `mcp_server.py:178-187`): once the stop event
is set, `wait` returns true, the loop breaks, and the thread ends. -/
def periodicObserveStop (s : IndexerState) : IndexerState :=
  if s.stopEvent then { s with periodicAlive := false } else s

/-! ## Sample environments for concrete instantiations -/

/-- A concrete stand-in for `json.loads`, defined on one fixed JSON
stdout and failing on everything else. -/
def sampleParse : String → Option Json := fun s =>
  if s = "[1, 2]" then some (Json.arr [Json.num 1, Json.num 2]) else none

/-- A concrete supervisor state: watch mode active, the child alive,
and the child ignoring `terminate()` (so `stop` must force-kill it). -/
def sampleWatchState : IndexerState :=
  { stopEvent := false, isRunning := true,
    watchProcess := some { pid := 4242, alive := true, exitsOnTerminate := false },
    periodicAlive := false, lastIndexTime := some 7, indexCount := 3 }

/-- A concrete supervisor state whose watch child has just exited
unexpectedly (handle present, no longer live, stop not requested). -/
def sampleCrashedState : IndexerState :=
  { stopEvent := false, isRunning := true,
    watchProcess := some { pid := 4242, alive := false, exitsOnTerminate := true },
    periodicAlive := false, lastIndexTime := none, indexCount := 1 }

/-- The handle of a freshly relaunched watch child. -/
def sampleRelaunchedChild : ProcHandle :=
  { pid := 4243, alive := true, exitsOnTerminate := true }

/-! ## Claims -/

/-- C1: `run_cass` is total at its boundary: for every argument list
and timeout it returns an Invocation Result value (in this embedding
every failure mode of the subprocess is a value of `ProcOutcome`, and
`run_cass` is a total function of it — nothing escapes as an
exception).  In particular, a subprocess timeout yields a Failure
containing the timeout message, and any other invocation error (binary
missing, permission denied) yields a Failure containing the exception
message. -/
theorem run_cass_total_at_boundary
    (parse : String → Option Json) (exec : List String → Nat → ProcOutcome)
    (args : List String) (timeout : Nat) :
    (∃ r : Json, run_cass parse exec args timeout = r)
    ∧ (exec args timeout = .timedOut →
        run_cass parse exec args timeout
          = Json.obj [("error", .bool true), ("message", .str (timeoutMsg timeout))]
        ∧ isFailure (run_cass parse exec args timeout) = true)
    ∧ (∀ msg, exec args timeout = .raised msg →
        run_cass parse exec args timeout
          = Json.obj [("error", .bool true), ("message", .str msg)]
        ∧ isFailure (run_cass parse exec args timeout) = true) := by
  refine ⟨⟨_, rfl⟩, fun h => ?_, fun msg h => ?_⟩
  · have e : run_cass parse exec args timeout
        = Json.obj [("error", .bool true), ("message", .str (timeoutMsg timeout))] := by
      simp [run_cass, h]
    exact ⟨e, by rw [e]; rfl⟩
  · have e : run_cass parse exec args timeout
        = Json.obj [("error", .bool true), ("message", .str msg)] := by
      simp [run_cass, h]
    exact ⟨e, by rw [e]; rfl⟩

/-- Witness for C1: concrete invocations where the subprocess times out
and where `subprocess.run` raises a file-not-found error. -/
theorem run_cass_total_at_boundary_witness :
    ((fun (_ : List String) (_ : Nat) => ProcOutcome.timedOut) ["search", "q", "--json"] 30
        = ProcOutcome.timedOut
      ∧ run_cass (fun _ => none) (fun _ _ => ProcOutcome.timedOut) ["search", "q", "--json"] 30
          = Json.obj [("error", .bool true), ("message", .str (timeoutMsg 30))]
      ∧ isFailure (run_cass (fun _ => none) (fun _ _ => ProcOutcome.timedOut)
          ["search", "q", "--json"] 30) = true)
    ∧ ((fun (_ : List String) (_ : Nat) => ProcOutcome.raised "No such file or directory")
          ["stats", "--json"] 30 = ProcOutcome.raised "No such file or directory"
      ∧ run_cass (fun _ => none) (fun _ _ => ProcOutcome.raised "No such file or directory")
          ["stats", "--json"] 30
          = Json.obj [("error", .bool true), ("message", .str "No such file or directory")]
      ∧ isFailure (run_cass (fun _ => none)
          (fun _ _ => ProcOutcome.raised "No such file or directory")
          ["stats", "--json"] 30) = true) := by
  constructor
  · exact ⟨rfl, (run_cass_total_at_boundary (fun _ => none) (fun _ _ => ProcOutcome.timedOut)
      ["search", "q", "--json"] 30).2.1 rfl⟩
  · exact ⟨rfl, (run_cass_total_at_boundary (fun _ => none)
      (fun _ _ => ProcOutcome.raised "No such file or directory")
      ["stats", "--json"] 30).2.2 "No such file or directory" rfl⟩

/-- C2: every tool call dispatched through `call_tool` with a name that
is not one of the ten registered names yields a structured Failure
payload (an error object with a message), and any exception raised
during dispatch is caught at the outermost boundary and converted to
the same structured-error shape; every dispatch returns a value, so no
exception reaches the transport. -/
theorem call_tool_boundary
    (parse : String → Option Json) (exec : List String → Nat → ProcOutcome)
    (a : ToolArguments) :
    (∀ name, name ∉ registeredTools →
        call_tool parse exec name a
          = Json.obj [("error", .bool true), ("message", .str ("Unknown tool: " ++ name))]
        ∧ isFailure (call_tool parse exec name a) = true)
    ∧ (∀ name m, dispatchTool parse exec name a = .error m →
        call_tool parse exec name a
          = Json.obj [("error", .bool true), ("message", .str m)]
        ∧ isFailure (call_tool parse exec name a) = true)
    ∧ (∀ name, ∃ r : Json, call_tool parse exec name a = r) := by
  refine ⟨fun name h => ?_, fun name m hm => ?_, fun name => ⟨_, rfl⟩⟩
  · simp only [registeredTools, List.mem_cons, List.not_mem_nil, or_false, not_or] at h
    obtain ⟨h1, h2, h3, h4, h5, h6, h7, h8, h9, h10⟩ := h
    have e : call_tool parse exec name a
        = Json.obj [("error", .bool true), ("message", .str ("Unknown tool: " ++ name))] := by
      simp [call_tool, dispatchTool, h1, h2, h3, h4, h5, h6, h7, h8, h9, h10]
    exact ⟨e, by rw [e]; rfl⟩
  · have e : call_tool parse exec name a
        = Json.obj [("error", .bool true), ("message", .str m)] := by
      simp [call_tool, hm]
    exact ⟨e, by rw [e]; rfl⟩

/-- Witness for C2: the unregistered name `cass_delete` produces the
unknown-tool Failure, and a `cass_search` call with no `query` argument
(a `KeyError` inside the body) is converted at the boundary. -/
theorem call_tool_boundary_witness :
    ("cass_delete" ∉ registeredTools
      ∧ call_tool (fun _ => none) (fun _ _ => ProcOutcome.timedOut) "cass_delete" {}
          = Json.obj [("error", .bool true), ("message", .str ("Unknown tool: " ++ "cass_delete"))]
      ∧ isFailure (call_tool (fun _ => none) (fun _ _ => ProcOutcome.timedOut)
          "cass_delete" {}) = true)
    ∧ (dispatchTool (fun _ => none) (fun _ _ => ProcOutcome.timedOut) "cass_search" {}
        = Except.error "\x27query\x27"
      ∧ call_tool (fun _ => none) (fun _ _ => ProcOutcome.timedOut) "cass_search" {}
          = Json.obj [("error", .bool true), ("message", .str "\x27query\x27")]
      ∧ isFailure (call_tool (fun _ => none) (fun _ _ => ProcOutcome.timedOut)
          "cass_search" {}) = true) := by
  constructor
  · have h : "cass_delete" ∉ registeredTools := by decide
    exact ⟨h, (call_tool_boundary (fun _ => none) (fun _ _ => ProcOutcome.timedOut) {}).1
      "cass_delete" h⟩
  · exact ⟨rfl, (call_tool_boundary (fun _ => none) (fun _ _ => ProcOutcome.timedOut) {}).2.1
      "cass_search" "\x27query\x27" rfl⟩

/-- C3: a subprocess invocation through `run_cass` that exits with a
non-zero code returns a Failure carrying exactly that exit code, the
trimmed stderr, and the trimmed stdout. -/
theorem run_cass_nonzero_exit
    (parse : String → Option Json) (exec : List String → Nat → ProcOutcome)
    (args : List String) (timeout : Nat) (rc : Int) (out err : String)
    (h : exec args timeout = .completed rc out err) (hrc : rc ≠ 0) :
    run_cass parse exec args timeout
      = Json.obj [("error", .bool true), ("exit_code", .num rc),
                  ("stderr", .str (strip err)), ("stdout", .str (strip out))] := by
  simp [run_cass, h, hrc]

/-- Witness for C3, the spec scenario: exit code 2 with stderr
`index corrupted` produces the Failure with exit code 2, the trimmed
stderr and the trimmed stdout. -/
theorem run_cass_nonzero_exit_witness :
    (fun (_ : List String) (_ : Nat) =>
        ProcOutcome.completed 2 "partial output\n" "index corrupted\n")
      ["search", "q", "--json"] 30
      = ProcOutcome.completed 2 "partial output\n" "index corrupted\n"
    ∧ (2 : Int) ≠ 0
    ∧ run_cass (fun _ => none)
        (fun _ _ => ProcOutcome.completed 2 "partial output\n" "index corrupted\n")
        ["search", "q", "--json"] 30
      = Json.obj [("error", .bool true), ("exit_code", .num 2),
                  ("stderr", .str "index corrupted"), ("stdout", .str "partial output")] := by
  refine ⟨rfl, by decide, ?_⟩
  have h := run_cass_nonzero_exit (fun _ => none)
    (fun _ _ => ProcOutcome.completed 2 "partial output\n" "index corrupted\n")
    ["search", "q", "--json"] 30 2 "partial output\n" "index corrupted\n" rfl (by decide)
  rw [h]; rfl

/-- C4: a subprocess invocation through `run_cass` that exits with code
zero returns the parsed JSON structure whenever stdout parses (so any
encoding of the result coincides with the encoding of the parsed
structure — the round trip), and when stdout is not valid JSON the
result is the trimmed raw stdout wrapped as `output`; the parse error
is never surfaced. -/
theorem run_cass_success_json
    (parse : String → Option Json) (exec : List String → Nat → ProcOutcome)
    (args : List String) (timeout : Nat) (out err : String)
    (h : exec args timeout = .completed 0 out err) :
    (∀ j, parse out = some j →
        run_cass parse exec args timeout = j
        ∧ ∀ encode : Json → String,
            encode (run_cass parse exec args timeout) = encode j)
    ∧ (parse out = none →
        run_cass parse exec args timeout
          = Json.obj [("output", .str (strip out))]) := by
  constructor
  · intro j hj
    have e : run_cass parse exec args timeout = j := by simp [run_cass, h, hj]
    exact ⟨e, fun encode => by rw [e]⟩
  · intro hj
    simp [run_cass, h, hj]

/-- Witness for C4: with the concrete parser `sampleParse`, a zero-exit
run whose stdout is `[1, 2]` returns the parsed array, and a zero-exit
run whose stdout is plain text returns the trimmed raw text. -/
theorem run_cass_success_json_witness :
    (fun (_ : List String) (_ : Nat) => ProcOutcome.completed 0 "[1, 2]" "")
        ["stats", "--json"] 30 = ProcOutcome.completed 0 "[1, 2]" ""
    ∧ sampleParse "[1, 2]" = some (Json.arr [Json.num 1, Json.num 2])
    ∧ run_cass sampleParse (fun _ _ => ProcOutcome.completed 0 "[1, 2]" "")
        ["stats", "--json"] 30 = Json.arr [Json.num 1, Json.num 2]
    ∧ sampleParse "plain text\n" = none
    ∧ run_cass sampleParse (fun _ _ => ProcOutcome.completed 0 "plain text\n" "")
        ["stats", "--json"] 30 = Json.obj [("output", .str "plain text")] := by
  refine ⟨rfl, rfl, ?_, rfl, ?_⟩
  · exact ((run_cass_success_json sampleParse
      (fun _ _ => ProcOutcome.completed 0 "[1, 2]" "") ["stats", "--json"] 30
      "[1, 2]" "" rfl).1 (Json.arr [Json.num 1, Json.num 2]) rfl).1
  · have h := (run_cass_success_json sampleParse
      (fun _ _ => ProcOutcome.completed 0 "plain text\n" "") ["stats", "--json"] 30
      "plain text\n" "" rfl).2 rfl
    rw [h]; rfl

/-- C5: a `cass_search` call whose `limit` argument exceeds 100
forwards `--limit 100`: the fragment the `limit` parameter contributes
is exactly `["--limit", "100"]`, that pair occurs in the forwarded
argument list, and the clamped value differs from the supplied one; on
the spec's scenario (`query` "auth error", `limit` 250) the forwarded
list is exactly `["search", "auth error", "--json", "--limit", "100"]`
and does not contain `--limit 250`. -/
theorem cass_search_limit_clamped (q : String) (a : ToolArguments) (v : Int)
    (hv : a.limit = some v) (h100 : 100 < v) :
    limitFragment a.limit = ["--limit", "100"]
    ∧ ["--limit", "100"] <:+: buildSearchArgs q a
    ∧ min v 100 ≠ v
    ∧ buildSearchArgs "auth error" { limit := some 250 }
        = ["search", "auth error", "--json", "--limit", "100"]
    ∧ ¬ ["--limit", "250"] <:+: buildSearchArgs "auth error" { limit := some 250 } := by
  have hne : v ≠ 0 := by omega
  have hmin : min v 100 = 100 := min_eq_right (le_of_lt h100)
  have hfrag : limitFragment a.limit = ["--limit", "100"] := by
    rw [hv]
    simp only [limitFragment, hne, hmin, ne_eq, not_false_eq_true, if_true]
    rfl
  refine ⟨hfrag, ?_, ?_, by rfl, by decide⟩
  · refine ⟨["search", q, "--json"] ++ agentFragment a.agent ++ workspaceFragment a.workspace,
      daysFragment a.days ++ todayFragment a.today ++ highlightFragment a.highlight, ?_⟩
    simp [buildSearchArgs, hfrag, List.append_assoc]
  · rw [hmin]
    omega

/-- Witness for C5: the spec scenario instantiated — `limit` 250
exceeds 100 and the forwarded pair is `--limit 100`. -/
theorem cass_search_limit_clamped_witness :
    ({ limit := some 250 } : ToolArguments).limit = some 250
    ∧ (100 : Int) < 250
    ∧ limitFragment ({ limit := some 250 } : ToolArguments).limit = ["--limit", "100"]
    ∧ ["--limit", "100"] <:+: buildSearchArgs "auth error" { limit := some 250 } := by
  refine ⟨rfl, by decide, ?_, ?_⟩
  · exact (cass_search_limit_clamped "auth error" { limit := some 250 } 250 rfl (by decide)).1
  · exact (cass_search_limit_clamped "auth error" { limit := some 250 } 250 rfl (by decide)).2.1

/-- C6 counterexample: the Failure `run_cass` returns on a subprocess
timeout carries neither a `stderr` nor a `stdout` field (it is
`error` + `message` only), contradicting the claim that every Failure
carries both fields. -/
theorem run_cass_timeout_failure_missing_fields :
    isFailure (run_cass (fun _ => none) (fun _ _ => ProcOutcome.timedOut)
        ["search", "q", "--json"] 30) = true
    ∧ hasKey "stderr" (run_cass (fun _ => none) (fun _ _ => ProcOutcome.timedOut)
        ["search", "q", "--json"] 30) = false
    ∧ hasKey "stdout" (run_cass (fun _ => none) (fun _ _ => ProcOutcome.timedOut)
        ["search", "q", "--json"] 30) = false :=
  ⟨rfl, rfl, rfl⟩

/-- C6 (amended): every Failure returned by `run_cass` has one of two
complete shapes, determined by the failure mode — a non-zero-exit
Failure carries `error`, `exit_code`, `stderr` and `stdout` (and no
`message`), while a timeout or invocation-exception Failure carries
`error` and `message` (and no `exit_code`, `stderr` or `stdout`);
within its shape no Failure is partially filled. -/
theorem run_cass_failure_field_shapes
    (parse : String → Option Json) (exec : List String → Nat → ProcOutcome)
    (args : List String) (timeout : Nat) :
    (∀ rc out err, exec args timeout = .completed rc out err → rc ≠ 0 →
        isFailure (run_cass parse exec args timeout) = true
        ∧ hasKey "exit_code" (run_cass parse exec args timeout) = true
        ∧ hasKey "stderr" (run_cass parse exec args timeout) = true
        ∧ hasKey "stdout" (run_cass parse exec args timeout) = true
        ∧ hasKey "message" (run_cass parse exec args timeout) = false)
    ∧ (exec args timeout = .timedOut →
        isFailure (run_cass parse exec args timeout) = true
        ∧ hasKey "message" (run_cass parse exec args timeout) = true
        ∧ hasKey "exit_code" (run_cass parse exec args timeout) = false
        ∧ hasKey "stderr" (run_cass parse exec args timeout) = false
        ∧ hasKey "stdout" (run_cass parse exec args timeout) = false)
    ∧ (∀ msg, exec args timeout = .raised msg →
        isFailure (run_cass parse exec args timeout) = true
        ∧ hasKey "message" (run_cass parse exec args timeout) = true
        ∧ hasKey "exit_code" (run_cass parse exec args timeout) = false
        ∧ hasKey "stderr" (run_cass parse exec args timeout) = false
        ∧ hasKey "stdout" (run_cass parse exec args timeout) = false) := by
  refine ⟨fun rc out err h hrc => ?_, fun h => ?_, fun msg h => ?_⟩
  · have e : run_cass parse exec args timeout
        = Json.obj [("error", .bool true), ("exit_code", .num rc),
                    ("stderr", .str (strip err)), ("stdout", .str (strip out))] := by
      simp [run_cass, h, hrc]
    rw [e]
    exact ⟨rfl, rfl, rfl, rfl, rfl⟩
  · have e : run_cass parse exec args timeout
        = Json.obj [("error", .bool true), ("message", .str (timeoutMsg timeout))] := by
      simp [run_cass, h]
    rw [e]
    exact ⟨rfl, rfl, rfl, rfl, rfl⟩
  · have e : run_cass parse exec args timeout
        = Json.obj [("error", .bool true), ("message", .str msg)] := by
      simp [run_cass, h]
    rw [e]
    exact ⟨rfl, rfl, rfl, rfl, rfl⟩

/-- Witness for the amended C6: a concrete non-zero-exit run has the
full exit-code shape, and a concrete timed-out run has the full
message shape. -/
theorem run_cass_failure_field_shapes_witness :
    (2 : Int) ≠ 0
    ∧ (isFailure (run_cass (fun _ => none)
          (fun _ _ => ProcOutcome.completed 2 "o" "e") ["health", "--json"] 30) = true
        ∧ hasKey "exit_code" (run_cass (fun _ => none)
            (fun _ _ => ProcOutcome.completed 2 "o" "e") ["health", "--json"] 30) = true
        ∧ hasKey "stderr" (run_cass (fun _ => none)
            (fun _ _ => ProcOutcome.completed 2 "o" "e") ["health", "--json"] 30) = true
        ∧ hasKey "stdout" (run_cass (fun _ => none)
            (fun _ _ => ProcOutcome.completed 2 "o" "e") ["health", "--json"] 30) = true
        ∧ hasKey "message" (run_cass (fun _ => none)
            (fun _ _ => ProcOutcome.completed 2 "o" "e") ["health", "--json"] 30) = false)
    ∧ (isFailure (run_cass (fun _ => none)
          (fun _ _ => ProcOutcome.timedOut) ["health", "--json"] 30) = true
        ∧ hasKey "message" (run_cass (fun _ => none)
            (fun _ _ => ProcOutcome.timedOut) ["health", "--json"] 30) = true
        ∧ hasKey "exit_code" (run_cass (fun _ => none)
            (fun _ _ => ProcOutcome.timedOut) ["health", "--json"] 30) = false
        ∧ hasKey "stderr" (run_cass (fun _ => none)
            (fun _ _ => ProcOutcome.timedOut) ["health", "--json"] 30) = false
        ∧ hasKey "stdout" (run_cass (fun _ => none)
            (fun _ _ => ProcOutcome.timedOut) ["health", "--json"] 30) = false) := by
  refine ⟨by decide, ?_, ?_⟩
  · exact (run_cass_failure_field_shapes (fun _ => none)
      (fun _ _ => ProcOutcome.completed 2 "o" "e") ["health", "--json"] 30).1
      2 "o" "e" rfl (by decide)
  · exact (run_cass_failure_field_shapes (fun _ => none)
      (fun _ _ => ProcOutcome.timedOut) ["health", "--json"] 30).2.1 rfl

/-- C7: after `stop` returns, the stop flag is set (observed by the
periodic loop and the watch-restart monitor), the running flag is
cleared, no watch child process is live (the child is terminated, and
force-killed when it ignores the grace period), a second `stop` is a
no-op (idempotence), and — when no periodic thread is alive — the
status mode reads `stopped`. -/
theorem stop_leaves_no_live_watch_child (s : IndexerState) :
    (stop s).stopEvent = true
    ∧ (stop s).isRunning = false
    ∧ watchRunning (stop s) = false
    ∧ stop (stop s) = stop s
    ∧ (s.periodicAlive = false → statusMode (stop s) = "stopped") := by
  obtain ⟨ev, ir, wp, pa, lit, ic⟩ := s
  match wp with
  | none =>
      refine ⟨rfl, rfl, rfl, rfl, fun h => ?_⟩
      subst h
      rfl
  | some ⟨pid, alive, eot⟩ =>
      cases alive <;> cases eot <;>
        · refine ⟨rfl, rfl, rfl, rfl, fun h => ?_⟩
          subst h
          rfl

/-- Witness for C7 at a live, terminate-resistant watch child:
everything `stop` promises holds. -/
theorem stop_leaves_no_live_watch_child_witness :
    (stop sampleWatchState).stopEvent = true
    ∧ (stop sampleWatchState).isRunning = false
    ∧ watchRunning (stop sampleWatchState) = false
    ∧ stop (stop sampleWatchState) = stop sampleWatchState
    ∧ statusMode (stop sampleWatchState) = "stopped" := by
  have h := stop_leaves_no_live_watch_child sampleWatchState
  exact ⟨h.1, h.2.1, h.2.2.1, h.2.2.2.1, h.2.2.2.2 rfl⟩

/-- The `mode` field of the `get_status` snapshot is the `statusMode`
string (a helper shared by the supervisor proofs). -/
theorem get_status_mode_field (s : IndexerState) :
    getField (get_status s) "mode" = some (Json.str (statusMode s)) := rfl

/-- C8: when the monitor observes that the watch child exited and the
supervisor has not been told to stop, it restarts watch mode (the
restart carries no attempt counter — the retry policy is uncapped), and
once the relaunch succeeds (the new child is live) the status mode
reports `watch` again, both in `statusMode` and in the `mode` field of
`get_status`. -/
theorem watch_monitor_restart (s : IndexerState) (p : ProcHandle)
    (hstop : s.stopEvent = false) (halive : p.alive = true) :
    monitorOnChildExit (.spawned p) s = { s with watchProcess := some p }
    ∧ statusMode (monitorOnChildExit (.spawned p) s) = "watch"
    ∧ getField (get_status (monitorOnChildExit (.spawned p) s)) "mode"
        = some (.str "watch") := by
  have e : monitorOnChildExit (.spawned p) s = { s with watchProcess := some p } := by
    simp [monitorOnChildExit, hstop, startWatchMode]
  have hm : statusMode { s with watchProcess := some p } = "watch" := by
    simp [statusMode, watchRunning, halive]
  refine ⟨e, ?_, ?_⟩
  · rw [e, hm]
  · rw [e, get_status_mode_field, hm]

/-- Witness for C8: a supervisor whose watch child just crashed, not
stopped, restarts with a live child and reports mode `watch`. -/
theorem watch_monitor_restart_witness :
    sampleCrashedState.stopEvent = false
    ∧ sampleRelaunchedChild.alive = true
    ∧ monitorOnChildExit (.spawned sampleRelaunchedChild) sampleCrashedState
        = { sampleCrashedState with watchProcess := some sampleRelaunchedChild }
    ∧ statusMode (monitorOnChildExit (.spawned sampleRelaunchedChild) sampleCrashedState)
        = "watch" := by
  have h := watch_monitor_restart sampleCrashedState sampleRelaunchedChild rfl rfl
  exact ⟨rfl, rfl, h.1, h.2.1⟩

/-- C9 counterexample: an index pass that completes with exit code 2 —
not a success — still moves `last_index_time` (here from `none` to tick
42, visible through `get_status`), so the field is not the timestamp of
the last *successful* pass. -/
theorem run_index_failure_updates_last_index_time :
    ({} : IndexerState).lastIndexTime = none
    ∧ (2 : Int) ≠ 0
    ∧ (runIndex 42 (.completed 2 "" "index corrupted") ({} : IndexerState)).lastIndexTime
        = some 42
    ∧ getField (get_status (runIndex 42 (.completed 2 "" "index corrupted")
        ({} : IndexerState))) "last_index_time" = some (.num 42) :=
  ⟨rfl, by decide, rfl, rfl⟩

/-- C9 (amended): `last_index_time` is the timestamp of the last index
pass that ran to completion, regardless of exit code: every completed
pass sets it to the current tick and increments the run count, while a
timed-out or exception-raising pass leaves both unchanged. -/
theorem last_index_time_tracks_completed_runs (s : IndexerState) (now : Nat) :
    (∀ rc out err,
        (runIndex now (.completed rc out err) s).lastIndexTime = some now
        ∧ (runIndex now (.completed rc out err) s).indexCount = s.indexCount + 1
        ∧ getField (get_status (runIndex now (.completed rc out err) s)) "last_index_time"
            = some (.num now))
    ∧ ((runIndex now .timedOut s).lastIndexTime = s.lastIndexTime
        ∧ (runIndex now .timedOut s).indexCount = s.indexCount)
    ∧ (∀ msg, (runIndex now (.raised msg) s).lastIndexTime = s.lastIndexTime
        ∧ (runIndex now (.raised msg) s).indexCount = s.indexCount) :=
  ⟨fun _ _ _ => ⟨rfl, rfl, rfl⟩, ⟨rfl, rfl⟩, fun _ => ⟨rfl, rfl⟩⟩

/-- C10: a `cass_search` call whose `limit` argument equals 0 forwards
no `--limit` flag at all — a zero limit is tested by Python truthiness
and so is treated exactly like an absent limit: the forwarded list
coincides with the one built with no `limit` key, the limit fragment is
empty, and on a concrete call the list is just the base search
arguments with `--limit` absent. -/
theorem cass_search_zero_limit_no_flag (q : String) (a : ToolArguments) :
    buildSearchArgs q { a with limit := some 0 }
      = buildSearchArgs q { a with limit := none }
    ∧ limitFragment (some 0) = []
    ∧ buildSearchArgs "auth error" { limit := some 0 } = ["search", "auth error", "--json"]
    ∧ "--limit" ∉ buildSearchArgs "auth error" { limit := some 0 } :=
  ⟨rfl, rfl, rfl, by decide⟩

end CassMCP
